import Mathlib

/-!
Verification of the GemDesk context/session management subsystem.

This file gives a shallow embedding, in Lean 4, of the session-state logic of
the GemDesk chat application: the presets table (`presets.py`), message
validation (`validation.py`), the shelf and context-cache bookkeeping, the
token-budget meter, the file categorizer, and the conversation-turn handler
(`gem.py` / `send_chat_streaming.py`).  Pure Python functions become Lean
functions; the mutable closure state of `main` becomes an explicit
`SessionState` record that every operation threads; the provider (upload,
token counting, cache creation, streamed generation, chart rendering) is an
oracle parameter whose success or failure each operation receives as an
argument, exactly at the points where the source wraps a provider call in
`try`/`except`.
-/

namespace GemDesk

/-! ## Python string primitives

The source manipulates strings with `str.lower`, `str.strip`, `str.split`,
`str.startswith`, `str.endswith` and the `in` substring test.  They are
reproduced here on `String.data` (`List Char`), with Python's ASCII-range
lowercasing and whitespace conventions. -/

/-- ASCII lowercasing of one character, as Python's `str.lower` acts on the
basic latin letters appearing in the preset command tables: code points 65-90
shift by 32, everything else is unchanged. -/
def lowerChar (c : Char) : Char :=
  if h : 65 ≤ c.toNat ∧ c.toNat ≤ 90 then
    Char.ofNatAux (c.toNat + 32) (Or.inl (by omega))
  else c

/-- Python `s.lower()` (ASCII range). -/
def lowerStr (s : String) : String := ⟨s.data.map lowerChar⟩

/-- Python `s.strip()` on a character list: drop leading and trailing
whitespace. -/
def pyStripL (l : List Char) : List Char :=
  ((l.dropWhile Char.isWhitespace).reverse.dropWhile Char.isWhitespace).reverse

/-- Python `s.strip()`. -/
def pyStrip (s : String) : String := ⟨pyStripL s.data⟩

/-- Accumulator-style whitespace tokenizer: Python `s.split()` drops empty
pieces. -/
def wordsAux : List Char → List Char → List (List Char)
  | [], acc => if acc.isEmpty then [] else [acc.reverse]
  | c :: cs, acc =>
    if c.isWhitespace then
      if acc.isEmpty then wordsAux cs [] else acc.reverse :: wordsAux cs []
    else wordsAux cs (c :: acc)

/-- Python `s.split()` (split on whitespace runs, no empty tokens). -/
def pyTokens (s : String) : List String := (wordsAux s.data []).map fun w => ⟨w⟩

/-- The text after the first token of Python `s.split(maxsplit=1)`: skip
leading whitespace, skip the first token, skip the following whitespace run,
keep the remainder verbatim. -/
def pyRest (s : String) : String :=
  ⟨((s.data.dropWhile Char.isWhitespace).dropWhile
      (fun c => !c.isWhitespace)).dropWhile Char.isWhitespace⟩

/-- Python `s.startswith(pre)`. -/
def pyStartsWith (s pre : String) : Bool := List.isPrefixOf pre.data s.data

/-- Python `s.endswith(suf)`. -/
def pyEndsWith (s suf : String) : Bool := List.isSuffixOf suf.data s.data

/-- Substring occurrence check on character lists. -/
def infixCheck (needle : List Char) : List Char → Bool
  | [] => needle.isEmpty
  | c :: rest => needle.isPrefixOf (c :: rest) || infixCheck needle rest

/-- Python `needle in haystack` on strings. -/
def pyIn (needle haystack : String) : Bool := infixCheck needle.data haystack.data

/-! ## `presets.py` — slash-command preset table -/

/-- Preset system prompt for `/report` and its aliases (`presets.py`). -/
def REPORT_PROMPT : String :=
  "You are a concise executive summarizer analyzing multiple data sources.\n\nYour task:\n- Create a cohesive summary integrating information from ALL uploaded files\n- Highlight key points, main themes, and important takeaways\n- Use clear section headers to organize information\n- Cite specific sources with page numbers/timestamps when referencing data\n- Keep language professional but accessible\n- Use bullet points for clarity where appropriate\n\nOutput format:\n## Executive Summary\n[2-3 sentence overview]\n\n## Key Findings\n[Main points with citations]\n\n## Detailed Analysis\n[Organized by theme/topic]\n\n## Recommendations (if applicable)\n[Actionable insights]\n\nFocus on synthesizing information cohesively, not just listing what each file contains."

/-- Preset system prompt for `/synthesize` and its aliases (`presets.py`). -/
def SYNTHESIZE_PROMPT : String :=
  "You are a research synthesizer identifying novel insights and patterns.\n\nYour task:\n- Analyze ALL uploaded files to find connections, patterns, and emerging themes\n- Identify gaps in the existing data or knowledge\n- Generate novel insights or theories that emerge from combining these sources\n- Think creatively about what the data implies beyond surface-level observations\n- Explain your reasoning process clearly\n\nLook for:\n- Unexpected connections between different files/data points\n- Contradictions that reveal deeper truths\n- Patterns that suggest causation or correlation\n- Gaps that point to missing information or new research directions\n- Implications that go beyond what\x27s explicitly stated\n\nOutput format:\n## Synthesis Overview\n[What patterns/connections emerged]\n\n## Novel Insights\n[New theories or understanding generated from the data]\n\n## Supporting Evidence\n[Cite specific examples from files with page numbers/timestamps]\n\n## Implications\n[What this means, what questions it raises]\n\n## Gaps & Future Directions\n[What\x27s missing, what should be investigated next]\n\nBe creative but rigorous. Support all claims with evidence from the uploaded files."

/-- Preset system prompt for `/error-check` and its aliases (`presets.py`). -/
def ERROR_CHECK_PROMPT : String :=
  "You are a meticulous fact-checker identifying contradictions and inconsistencies.\n\nYour task:\n- Cross-reference ALL uploaded files systematically\n- Identify any contradictions, conflicting data, or inconsistent statements\n- Flag discrepancies in numbers, dates, facts, or claims\n- Note instances where sources disagree\n- Distinguish between clear contradictions vs. different perspectives\n- Assess severity (critical error vs. minor discrepancy)\n\nFor each issue found, provide:\n1. **Type**: Data contradiction / Logical inconsistency / Conflicting claims / Other\n2. **Severity**: Critical / Moderate / Minor\n3. **Sources**: Cite both/all conflicting sources with page numbers/timestamps\n4. **Details**: Explain the contradiction clearly\n5. **Assessment**: Is this a true error or explainable difference?\n\nOutput format:\n## Summary\n[Total contradictions found, severity breakdown]\n\n## Critical Issues\n[High-priority contradictions that need immediate attention]\n\n## Moderate Issues\n[Significant discrepancies worth investigating]\n\n## Minor Issues\n[Small inconsistencies that may be explainable]\n\n## Verified Consistencies (Optional)\n[Key facts that are consistent across all sources - builds confidence]\n\nBe thorough but fair. Not all differences are errors - context matters. If files are consistent, say so clearly."

/-- The alias-table body of `get_preset` (`presets.py` lines 15-24), applied to
the already normalized (lowered and stripped) command token. -/
def presetLookup (c : String) : Option String × Option String :=
  if c = "/report" ∨ c = "/summarize" ∨ c = "/digest" then
    (some REPORT_PROMPT, some "medium")
  else if c = "/synthesize" ∨ c = "/theory" ∨ c = "/insights" then
    (some SYNTHESIZE_PROMPT, some "high")
  else if c = "/error-check" ∨ c = "/contradictions" ∨ c = "/verify" then
    (some ERROR_CHECK_PROMPT, some "high")
  else (none, none)

/-- `get_preset(command)` (`presets.py`): normalize with
`command.lower().strip()`, then look the token up; returns
`(system_prompt, thinking_level)` or `(None, None)`. -/
def get_preset (command : String) : Option String × Option String :=
  presetLookup (pyStrip (lowerStr command))

/-- The alias-table body of `get_preset_indicator` (`presets.py`
lines 130-137). -/
def indicatorLookup (c : String) : Option String :=
  if c = "/report" ∨ c = "/summarize" ∨ c = "/digest" then
    some "📋 REPORT MODE"
  else if c = "/synthesize" ∨ c = "/theory" ∨ c = "/insights" then
    some "🔬 SYNTHESIS MODE"
  else if c = "/error-check" ∨ c = "/contradictions" ∨ c = "/verify" then
    some "🔍 ERROR-CHECK MODE"
  else none

/-- `get_preset_indicator(command)` (`presets.py`): short UI label for a
matched command, `None` otherwise. -/
def get_preset_indicator (command : String) : Option String :=
  indicatorLookup (pyStrip (lowerStr command))

/-- The nine slash-command aliases recognized by both preset tables. -/
def presetAliases : List String :=
  ["/report", "/summarize", "/digest",
   "/synthesize", "/theory", "/insights",
   "/error-check", "/contradictions", "/verify"]

/-! ## `validation.py` — input validation -/

/-- `MAX_MESSAGE_LENGTH` (`validation.py`). -/
def MAX_MESSAGE_LENGTH : Nat := 50000

/-- `validate_message(message)` (`validation.py` lines 108-135): reject an
empty message, a whitespace-only message, or a message whose stripped length
exceeds `MAX_MESSAGE_LENGTH`; otherwise return the stripped message with null
bytes removed. -/
def validate_message (message : String) : Except String String :=
  if message = "" then .error "Message must be a non-empty string"
  else
    let m := pyStrip message
    if m = "" then .error "Message cannot be empty"
    else if MAX_MESSAGE_LENGTH < m.length then
      .error ("Message exceeds " ++ toString MAX_MESSAGE_LENGTH ++ " character limit")
    else .ok ⟨m.data.filter (fun c => c ≠ '\x00')⟩

/-! ## Data model

`Content`/`Part` reproduce the shape of the provider message objects the
source stores in `conversation_history` and sends to the model;
`SessionState` gathers the nonlocal closure variables of `main` in `gem.py`.
The provider-side cache object is folded into the held reference: a
`ContextCache` records the ordered file parts it was created from, which is
exactly what `client.caches.create` receives. -/

inductive Role
  | user
  | model
deriving DecidableEq

inductive Part
  | text (s : String)
  | fileUri (uri mime : String)
deriving DecidableEq

structure Content where
  role : Role
  parts : List Part
deriving DecidableEq

structure UploadedFile where
  name : String
  uri : String
  mime : String
  tokens : Nat
  thumbnail : Option String
deriving DecidableEq

structure ContextCache where
  contents : List Part
deriving DecidableEq

structure SessionState where
  uploadedFiles : List UploadedFile
  conversationHistory : List Content
  currentCacheName : Option ContextCache
  thinkingLevel : String
  activePreset : Option String
deriving DecidableEq

/-! ## `gem.py` — shelf, cache and meter -/

/-- `MAX_CONTEXT_TOKENS` (`gem.py`). -/
def MAX_CONTEXT_TOKENS : Nat := 1000000

/-- `MAX_FILES` (`gem.py`). -/
def MAX_FILES : Nat := 50

/-- The file parts the cache is created from: `types.Part.from_uri(...)` for
every shelf file, in shelf order (`gem.py` lines 95-98). -/
def cacheParts (files : List UploadedFile) : List Part :=
  files.map fun f => .fileUri f.uri f.mime

/-- `update_shelf_cache()` (`gem.py` lines 76-112): best-effort delete of the
old cache and unconditional clearing of the reference; nothing further when
the shelf is empty; otherwise a creation attempt from the current shelf
contents.  `createOk` is the outcome of the `client.caches.create` call; a
failed creation is swallowed and leaves the reference absent. -/
def update_shelf_cache (createOk : Bool) (s : SessionState) : SessionState :=
  let s1 := { s with currentCacheName := none }
  if s1.uploadedFiles.isEmpty then s1
  else if createOk then
    { s1 with currentCacheName := some ⟨cacheParts s1.uploadedFiles⟩ }
  else s1

/-- `remove_file(file_index)` (`gem.py` lines 394-402): in-range indices pop
the entry and refresh the cache; anything else is ignored.  The second
component counts the `update_shelf_cache` calls the operation performs. -/
def remove_file (file_index : Int) (createOk : Bool) (s : SessionState) :
    SessionState × Nat :=
  if 0 ≤ file_index ∧ file_index < (s.uploadedFiles.length : Int) then
    (update_shelf_cache createOk
      { s with uploadedFiles := s.uploadedFiles.eraseIdx file_index.toNat }, 1)
  else (s, 0)

/-- `process_file_upload(...)` commit step (`gem.py` lines 546-555): after a
successful upload/poll/token-count, append the new record to the shelf and
refresh the cache.  `newFile` is the record the provider round-trips
produced; the second component counts cache rebuild attempts. -/
def process_file_upload (newFile : UploadedFile) (createOk : Bool)
    (s : SessionState) : SessionState × Nat :=
  (update_shelf_cache createOk
    { s with uploadedFiles := s.uploadedFiles ++ [newFile] }, 1)

/-- `add_url(e)` (`gem.py` lines 592-680): reject when the shelf is full;
direct file URLs go through `process_file_upload` (which refreshes the
cache); non-direct URLs are scraped and appended directly — this branch
performs no `update_shelf_cache` call.  `isDirectFileUrl` is the
`is_direct_file_url(url)` verdict and `newFile` the record produced by the
successful provider round-trips. -/
def add_url (isDirectFileUrl : Bool) (newFile : UploadedFile) (createOk : Bool)
    (s : SessionState) : SessionState × Nat :=
  if MAX_FILES ≤ s.uploadedFiles.length then (s, 0)
  else if isDirectFileUrl then process_file_upload newFile createOk s
  else ({ s with uploadedFiles := s.uploadedFiles ++ [newFile] }, 0)

/-- Utilization band of the context meter: GREEN / YELLOW / RED in the
source. -/
inductive MeterBand
  | nominal
  | warning
  | critical
deriving DecidableEq

/-- What `update_context_meter` leaves on screen: either the meter value with
its color band, or (when token counting failed) just the file-count label. -/
inductive MeterDisplay
  | meter (value : ℚ) (band : MeterBand)
  | fileCount (n : Nat)
deriving DecidableEq

def MeterDisplay.bandOf : MeterDisplay → Option MeterBand
  | .meter _ b => some b
  | .fileCount _ => none

/-- `update_context_meter()` (`gem.py` lines 209-242): on a successful
`count_tokens` call, `percentage = min(total/MAX*100, 100)` drives the meter
and the color thresholds at 50 and 80; on a provider exception the label
falls back to the number of loaded files.  `tokenCount` is the provider
outcome (`none` = the call raised). -/
def update_context_meter (tokenCount : Option Nat) (files : List UploadedFile) :
    MeterDisplay :=
  match tokenCount with
  | some total =>
    let percentage : ℚ :=
      min (((total : ℚ) / (MAX_CONTEXT_TOKENS : ℚ)) * 100) 100
    .meter (percentage / 100)
      (if percentage < 50 then .nominal
       else if percentage < 80 then .warning
       else .critical)
  | none => .fileCount files.length

/-- `get_file_category(name, mime)` (`gem.py` lines 404-419, also
`ui_components.py`): marker prefixes first, then mime substring rules. -/
def get_file_category (name mime : String) : String :=
  if pyStartsWith name "🔗" then "links"
  else if pyStartsWith name "🎤" then "audio"
  else if pyIn "image" mime then "images"
  else if pyIn "video" mime then "videos"
  else if pyIn "audio" mime then "audio"
  else if pyIn "pdf" mime || pyEndsWith name ".xlsx" || pyEndsWith name ".pptx"
          || pyIn "text" mime then "documents"
  else "other"

/-! ## Conversation engine — `send_chat`

`send_chat` in `gem.py` (lines 682-939) and its streaming variant
(`send_chat_streaming.py`) share the same turn discipline: dispatch the
input, override the thinking level when a preset matches, call the model
inside one `try` block, downgrade a chart-rendering failure to an inline
annotation, append the (user, model) pair to history, and restore the preset
override — with the whole `try` body guarded by a single `except` that
touches neither history nor the thinking level.  The model call and the
chart renderer are oracle parameters: `StreamResult.exn` stands for an
exception raised while building the request or during the
generation/streaming call, `ChartResult.exn` for `generate_chart`
raising. -/

/-- `SYSTEM_PROMPT` (`gem.py`). -/
def SYSTEM_PROMPT : String :=
  "You are an expert analyst assistant running on Gemini 3 Flash with advanced multimodal capabilities.\n\nWhen analyzing files:\n- For text/PDF documents: Always reference page numbers when available\n- For images/charts/diagrams: Use your vision capabilities to describe visual elements, trends, patterns\n- For video content: Provide timestamps in MM:SS format (minutes:seconds) for specific moments or events\n- For audio content: Provide timestamps in MM:SS format (minutes:seconds) for key points\n- For spreadsheets/data: Reference cell locations or row/column numbers, identify trends in charts\n- For presentations: Describe slide layouts, visual elements, charts, and diagrams\n- Provide clear, detailed analysis that synthesizes information across all provided files\n- When comparing multiple files, explicitly note connections and discrepancies\n- Use your native vision understanding to analyze charts, graphs, images, and visual data"

/-- The canned model acknowledgement paired with the default preamble. -/
def UNDERSTOOD_DEFAULT : String :=
  "Understood. I will provide expert analysis with specific references to page numbers, timestamps (in MM:SS format with seconds), and data locations as appropriate."

/-- The canned model acknowledgement paired with a preset preamble
(`send_chat_streaming.py` line 131). -/
def UNDERSTOOD_PRESET : String :=
  "Understood. I will analyze according to the specified mode."

/-- The fallback query used when a preset command has no remainder text. -/
def FALLBACK_QUERY : String :=
  "Analyze the uploaded files according to the specified mode."

/-- Captured `function_call` part of the response stream: its `name` and the
`title` entry of its argument object (absent when the model sent none). -/
structure FunctionCall where
  name : String
  title : Option String
deriving DecidableEq

/-- Outcome of the generation call: a completed stream with its accumulated
text and at most one captured function call, or an exception raised while
building the request or streaming. -/
inductive StreamResult
  | ok (fullText : String) (functionCall : Option FunctionCall)
  | exn (msg : String)
deriving DecidableEq

/-- Outcome of `generate_chart(chart_data)`: a rendered image path or an
exception. -/
inductive ChartResult
  | ok (path : String)
  | exn (msg : String)
deriving DecidableEq

/-- Result of the slash-command dispatch prologue of `send_chat`. -/
inductive DispatchResult
  | noInput
  | showHelp
  | unknownCommand (tok : String)
  | passthrough (query : String)
  | presetActive (cmd prompt depth query : String)
deriving DecidableEq

/-- The dispatch prologue of `send_chat` (`gem.py` lines 685-763): empty
input returns immediately; `/help`-like tokens and unknown commands end the
turn without a model call; a matched preset carries its prompt, thinking
level and the remainder-or-fallback query; everything else passes through
verbatim. -/
def dispatch (input : String) : DispatchResult :=
  if input = "" then .noInput
  else if pyStartsWith input "/" then
    let tok := (pyTokens input).headD ""
    if tok = "/help" ∨ tok = "/commands" then .showHelp
    else
      match get_preset tok with
      | (some prompt, depthOpt) =>
        let rest := pyRest input
        .presetActive tok prompt (depthOpt.getD "")
          (if rest = "" then FALLBACK_QUERY else rest)
      | (none, _) => .unknownCommand tok
  else .passthrough input

/-- The request built in the `try` block (`send_chat_streaming.py`
lines 126-173): preamble pair (preset prompt when active, default
otherwise), prior history, current query; with no cache and a non-empty
shelf, the final message is replaced by the shelf file parts plus the query
text. -/
def build_messages (presetPrompt : Option String) (history : List Content)
    (query : String) (cache : Option ContextCache)
    (files : List UploadedFile) : List Content :=
  let preamble : List Content :=
    match presetPrompt with
    | some p => [⟨.user, [.text p]⟩, ⟨.model, [.text UNDERSTOOD_PRESET]⟩]
    | none => [⟨.user, [.text SYSTEM_PROMPT]⟩, ⟨.model, [.text UNDERSTOOD_DEFAULT]⟩]
  let msgs := preamble ++ history ++ [⟨.user, [.text query]⟩]
  match cache with
  | some _ => msgs
  | none =>
    if files.isEmpty then msgs
    else msgs.dropLast ++ [⟨.user, cacheParts files ++ [.text query]⟩]

/-- The chart-handling epilogue of the stream (`gem.py` lines 862-904,
`send_chat_streaming.py` lines 190-228): when the captured function call is
`generate_chart`, a successful render puts a "Chart Generated" banner in
front of the accumulated text and a render exception puts an error
annotation in front of it instead; any other case leaves the text alone. -/
def chart_phase (chart : ChartResult) (functionCall : Option FunctionCall)
    (fullText : String) : String :=
  match functionCall with
  | some fc =>
    if fc.name = "generate_chart" then
      match chart with
      | .ok _ =>
        "📊 **Chart Generated: " ++ fc.title.getD "Chart" ++ "**\n\n" ++ fullText
      | .exn msg =>
        "❌ Chart generation failed: " ++ msg ++ "\n\n" ++ fullText
    else fullText
  | none => fullText

/-- The `try`/`except` body of a turn, entered after dispatch with the
effective query and (when a preset matched) the saved original thinking
level.  On a stream exception the state — history included — is returned as
the handler left it: the `except` arm only edits the UI.  On success the
chart phase runs, exactly one user and one model entry are appended, and a
matched preset is reset with the thinking level restored. -/
def run_model_turn (stream : StreamResult) (chart : ChartResult)
    (query : String) (originalThinking : Option String) (s : SessionState) :
    SessionState :=
  match stream with
  | .exn _ => s
  | .ok fullText fc =>
    let finalText := chart_phase chart fc fullText
    let s1 := { s with conversationHistory :=
      s.conversationHistory ++
        [⟨.user, [.text query]⟩, ⟨.model, [.text finalText]⟩] }
    match originalThinking with
    | some orig => { s1 with activePreset := none, thinkingLevel := orig }
    | none => s1

/-- `send_chat(e)` (`gem.py` lines 682-939, `send_chat_streaming.py`): the
full turn handler.  A matched preset records itself in `activePreset` and
overrides `thinkingLevel` before the `try` block begins, which is why a
stream exception leaves the override in place. -/
def send_chat (stream : StreamResult) (chart : ChartResult) (input : String)
    (s : SessionState) : SessionState :=
  match dispatch input with
  | .noInput => s
  | .showHelp => s
  | .unknownCommand _ => s
  | .passthrough q => run_model_turn stream chart q none s
  | .presetActive cmd _prompt depth q =>
    run_model_turn stream chart q (some s.thinkingLevel)
      { s with activePreset := some cmd, thinkingLevel := depth }

/-! ## Concrete fixtures -/

/-- A fresh session: empty shelf, empty history, no cache, default
thinking level `"high"`, no active preset. -/
def session0 : SessionState := ⟨[], [], none, "high", none⟩

/-- A document already on the shelf. -/
def fileA : UploadedFile :=
  ⟨"report.pdf", "files/abc123", "application/pdf", 1200, none⟩

/-- A scraped web page as `add_url` records it. -/
def fileB : UploadedFile :=
  ⟨"🔗 https://example.com/news...", "files/def456", "text/plain", 300, none⟩

/-- A session holding one file with a cache built from exactly that file. -/
def sessionWithCache : SessionState :=
  ⟨[fileA], [], some ⟨cacheParts [fileA]⟩, "high", none⟩

/-- A session holding two files and no cache. -/
def sessionTwo : SessionState := ⟨[fileA, fileB], [], none, "high", none⟩

/-- A chat message of 60,000 characters. -/
def longMessage : String := ⟨List.replicate 60000 'a'⟩

/-! ## Helper lemmas -/

lemma update_shelf_cache_uploadedFiles (createOk : Bool) (s : SessionState) :
    (update_shelf_cache createOk s).uploadedFiles = s.uploadedFiles := by
  unfold update_shelf_cache
  dsimp only
  split_ifs <;> rfl

/-! ## Claims -/

/-- C1: for every session state and user query, an exception raised while
building the request or during the generation/streaming call leaves the
conversation history exactly as it was before the turn began — the failed
turn appends neither a user nor a model entry. -/
theorem C1_failed_turn_leaves_history_unchanged (chart : ChartResult)
    (msg input : String) (s : SessionState) :
    (send_chat (.exn msg) chart input s).conversationHistory
      = s.conversationHistory := by
  unfold send_chat
  cases dispatch input <;> simp [run_model_turn]

/-- C2 (failing evaluation): the URL-scrape branch of `add_url` appends the
scraped file with zero cache rebuild attempts, so the held reference still
describes the previous shelf `[fileA]` and not the current shelf
`[fileA, fileB]`; the direct-file branch, by contrast, performs one rebuild
and leaves a reference matching the current shelf. -/
theorem C2_scrape_add_skips_cache_rebuild :
    (add_url false fileB true sessionWithCache).2 = 0
    ∧ (add_url false fileB true sessionWithCache).1.uploadedFiles = [fileA, fileB]
    ∧ (add_url false fileB true sessionWithCache).1.currentCacheName
        = some ⟨cacheParts [fileA]⟩
    ∧ cacheParts [fileA] ≠ cacheParts [fileA, fileB]
    ∧ (add_url true fileB true sessionWithCache).2 = 1
    ∧ (add_url true fileB true sessionWithCache).1.currentCacheName
        = some ⟨cacheParts (add_url true fileB true sessionWithCache).1.uploadedFiles⟩ := by
  decide

/-- C3 (failing evaluation): a matched preset overrides the thinking level,
but when the model call raises, the turn handler returns with the override
still applied (`"medium"` instead of the prior `"high"`) and the preset
still active; the success path does restore it. -/
theorem C3_thinking_override_not_restored_on_failure :
    session0.thinkingLevel = "high"
    ∧ (send_chat (.exn "network error") (.ok "chart.png")
        "/report summarize the files" session0).thinkingLevel = "medium"
    ∧ (send_chat (.exn "network error") (.ok "chart.png")
        "/report summarize the files" session0).activePreset = some "/report"
    ∧ (send_chat (.ok "Here is the report." none) (.ok "chart.png")
        "/report summarize the files" session0).thinkingLevel = "high" := by
  decide

/-- C9: `remove_file` ignores a negative or out-of-range index entirely (no
shelf change, no cache rebuild attempt, no error — the function is total),
and an in-range index removes exactly the element at that index, keeping the
remaining elements in their relative order. -/
theorem C9_remove_file_bounds (s : SessionState) (i : Int) (createOk : Bool) :
    ((i < 0 ∨ (s.uploadedFiles.length : Int) ≤ i) →
      remove_file i createOk s = (s, 0))
    ∧ (0 ≤ i → i < (s.uploadedFiles.length : Int) →
      (remove_file i createOk s).1.uploadedFiles
        = s.uploadedFiles.take i.toNat ++ s.uploadedFiles.drop (i.toNat + 1)
      ∧ (remove_file i createOk s).2 = 1) := by
  constructor
  · intro h
    unfold remove_file
    rw [if_neg]
    omega
  · intro h1 h2
    unfold remove_file
    rw [if_pos ⟨h1, h2⟩]
    refine ⟨?_, rfl⟩
    rw [update_shelf_cache_uploadedFiles]
    exact List.eraseIdx_eq_take_drop_succ _ _

/-- Witness for C9 at a two-file shelf: index `5` is ignored, index `0`
removes exactly the first file. -/
theorem C9_witness :
    remove_file 5 true sessionTwo = (sessionTwo, 0)
    ∧ (remove_file 0 true sessionTwo).1.uploadedFiles = [fileB] :=
  ⟨(C9_remove_file_bounds sessionTwo 5 true).1 (by decide),
   ((C9_remove_file_bounds sessionTwo 0 true).2 (by decide) (by decide)).1⟩

lemma mic_not_link {s : String} (h : pyStartsWith s "🎤" = true) :
    pyStartsWith s "🔗" = false := by
  unfold pyStartsWith at h ⊢
  have hmic : ("🎤" : String).data = ['🎤'] := rfl
  have hlink : ("🔗" : String).data = ['🔗'] := rfl
  rw [hmic] at h
  rw [hlink]
  cases hd : s.data with
  | nil => rw [hd] at h; simp [List.isPrefixOf] at h
  | cons b t =>
    rw [hd] at h
    simp [List.isPrefixOf] at h ⊢
    intro hb
    rw [← hb] at h
    exact absurd h (by decide)

/-- C4: a successful turn appends exactly two history entries — first a user
entry holding the turn's literal user query text, then a model entry holding
the final accumulated model text — and the appended entries hold nothing but
those two texts, so any string (in particular a preset prompt or the default
system preamble) absent from both is absent from the stored entries. -/
theorem C4_successful_turn_appends_user_then_model
    (chart : ChartResult) (fullText : String) (fc : Option FunctionCall)
    (input q : String) (s : SessionState)
    (h : dispatch input = .passthrough q
      ∨ ∃ cmd prompt depth, dispatch input = .presetActive cmd prompt depth q) :
    (send_chat (.ok fullText fc) chart input s).conversationHistory
      = s.conversationHistory ++
        [⟨.user, [.text q]⟩, ⟨.model, [.text (chart_phase chart fc fullText)]⟩]
    ∧ ∀ p : String, pyIn p q = false →
        pyIn p (chart_phase chart fc fullText) = false →
        ∀ c ∈ [Content.mk .user [.text q],
               Content.mk .model [.text (chart_phase chart fc fullText)]],
          ∀ t : String, Part.text t ∈ c.parts → pyIn p t = false := by
  constructor
  · rcases h with h | ⟨cmd, prompt, depth, h⟩ <;>
      · unfold send_chat
        rw [h]
        simp [run_model_turn]
  · intro p hq ht c hc t htmem
    simp only [List.mem_cons, List.not_mem_nil, or_false] at hc
    rcases hc with rfl | rfl
    · simp only [List.mem_cons, List.not_mem_nil, or_false, Part.text.injEq] at htmem
      subst htmem
      exact hq
    · simp only [List.mem_cons, List.not_mem_nil, or_false, Part.text.injEq] at htmem
      subst htmem
      exact ht

/-- Witness for C4: a plain turn with a successful model call commits the
(user, model) pair and nothing else. -/
theorem C4_witness :
    (send_chat (.ok "Sure, here it is." none) (.ok "chart.png") "hello"
        session0).conversationHistory
      = session0.conversationHistory ++
        [⟨.user, [.text "hello"]⟩,
         ⟨.model, [.text (chart_phase (.ok "chart.png") none "Sure, here it is.")]⟩] :=
  (C4_successful_turn_appends_user_then_model (.ok "chart.png")
    "Sure, here it is." none "hello" "hello" session0 (Or.inl (by decide))).1

/-- C6 (amended): when the model invokes `generate_chart` and the renderer
raises, the turn does not fail — the error annotation is placed inline (in
front of the accumulated model text) and the turn still commits its two
history entries and completes normally. -/
theorem C6_chart_render_failure_annotates_and_commits
    (fullText errMsg : String) (title : Option String) (input q : String)
    (s : SessionState)
    (h : dispatch input = .passthrough q
      ∨ ∃ cmd prompt depth, dispatch input = .presetActive cmd prompt depth q) :
    (send_chat (.ok fullText (some ⟨"generate_chart", title⟩)) (.exn errMsg)
        input s).conversationHistory
      = s.conversationHistory ++
        [⟨.user, [.text q]⟩,
         ⟨.model, [.text ("❌ Chart generation failed: " ++ errMsg
            ++ "\n\n" ++ fullText)]⟩] := by
  rcases h with h | ⟨cmd, prompt, depth, h⟩ <;>
    · unfold send_chat
      rw [h]
      simp [run_model_turn, chart_phase]

/-- Witness for C6: a concrete failed chart render still commits both
entries, with the annotation inline. -/
theorem C6_witness :
    (send_chat (.ok "Sales rose." (some ⟨"generate_chart", some "Sales"⟩))
        (.exn "missing data") "plot sales" session0).conversationHistory
      = session0.conversationHistory ++
        [⟨.user, [.text "plot sales"]⟩,
         ⟨.model, [.text ("❌ Chart generation failed: " ++ "missing data"
            ++ "\n\n" ++ "Sales rose.")]⟩] :=
  C6_chart_render_failure_annotates_and_commits "Sales rose." "missing data"
    (some "Sales") "plot sales" "plot sales" session0 (Or.inl (by decide))

/-- C6 counterexample to the claim as stated: the error annotation is not
appended to the model's text response — the stored model text does not begin
with the accumulated text `"hello"`; the annotation is prepended, so the
stored text ends with it instead. -/
theorem C6_counterexample_annotation_not_appended :
    (send_chat (.ok "hello" (some ⟨"generate_chart", some "T"⟩)) (.exn "boom")
        "hi" session0).conversationHistory
      = [⟨.user, [.text "hi"]⟩,
         ⟨.model, [.text "❌ Chart generation failed: boom\n\nhello"]⟩]
    ∧ pyStartsWith "❌ Chart generation failed: boom\n\nhello" "hello" = false
    ∧ pyEndsWith "❌ Chart generation failed: boom\n\nhello" "hello" = true := by
  decide

/-- C8: `get_file_category` is total over the six display categories, and
the link marker and recording marker on the display name take precedence
over every mime-based rule, whatever the mime string is. -/
theorem C8_categorize_total_and_marker_precedence (name mime : String) :
    get_file_category name mime ∈
      (["documents", "images", "videos", "audio", "links", "other"] : List String)
    ∧ (pyStartsWith name "🔗" = true → get_file_category name mime = "links")
    ∧ (pyStartsWith name "🎤" = true → get_file_category name mime = "audio") := by
  refine ⟨?_, ?_, ?_⟩
  · unfold get_file_category
    split_ifs <;> simp
  · intro h
    unfold get_file_category
    simp [h]
  · intro h
    unfold get_file_category
    simp [h, mic_not_link h]

/-- Witness for C8: the recording marker beats an image mime and the link
marker beats a video mime. -/
theorem C8_witness :
    get_file_category "🎤 memo.png" "image/png" = "audio"
    ∧ get_file_category "🔗 https://example.com..." "video/mp4" = "links" :=
  ⟨(C8_categorize_total_and_marker_precedence "🎤 memo.png" "image/png").2.2
      (by decide),
   (C8_categorize_total_and_marker_precedence "🔗 https://example.com..."
      "video/mp4").2.1 (by decide)⟩

/-- C7: the token meter classifies utilization `used/max` into exactly three
bands with thresholds at 0.50 and 0.80 — below 0.50 nominal (green), from
0.50 up to but excluding 0.80 warning (yellow), 0.80 and above critical
(red) — and a failed provider token count never raises: the display falls
back to the count of loaded files. -/
theorem C7_meter_bands_and_fallback (total : Nat) (files : List UploadedFile) :
    ((total : ℚ) / (MAX_CONTEXT_TOKENS : ℚ) < 1/2 →
      (update_context_meter (some total) files).bandOf = some .nominal)
    ∧ (1/2 ≤ (total : ℚ) / (MAX_CONTEXT_TOKENS : ℚ) →
       (total : ℚ) / (MAX_CONTEXT_TOKENS : ℚ) < 4/5 →
      (update_context_meter (some total) files).bandOf = some .warning)
    ∧ (4/5 ≤ (total : ℚ) / (MAX_CONTEXT_TOKENS : ℚ) →
      (update_context_meter (some total) files).bandOf = some .critical)
    ∧ update_context_meter none files = .fileCount files.length := by
  set r : ℚ := (total : ℚ) / (MAX_CONTEXT_TOKENS : ℚ) with hr
  refine ⟨?_, ?_, ?_, rfl⟩
  · intro h
    unfold update_context_meter
    simp only [MeterDisplay.bandOf, ← hr, Option.some.injEq]
    rw [if_pos (lt_of_le_of_lt (min_le_left _ _) (by linarith))]
  · intro h1 h2
    unfold update_context_meter
    simp only [MeterDisplay.bandOf, ← hr, Option.some.injEq]
    rw [min_eq_left (by linarith : r * 100 ≤ 100)]
    rw [if_neg (by linarith : ¬ r * 100 < 50), if_pos (by linarith : r * 100 < 80)]
  · intro h
    unfold update_context_meter
    simp only [MeterDisplay.bandOf, ← hr, Option.some.injEq]
    have hmin : (80 : ℚ) ≤ min (r * 100) 100 := le_min (by linarith) (by norm_num)
    rw [if_neg (by linarith : ¬ min (r * 100) 100 < 50),
        if_neg (by linarith : ¬ min (r * 100) 100 < 80)]

/-- Witness for C7 at concrete token counts on either side of each
threshold, plus the fallback display. -/
theorem C7_witness :
    (update_context_meter (some 400000) []).bandOf = some .nominal
    ∧ (update_context_meter (some 500000) []).bandOf = some .warning
    ∧ (update_context_meter (some 800000) []).bandOf = some .critical
    ∧ update_context_meter none [fileA] = .fileCount 1 :=
  ⟨(C7_meter_bands_and_fallback 400000 []).1 (by norm_num [MAX_CONTEXT_TOKENS]),
   (C7_meter_bands_and_fallback 500000 []).2.1 (by norm_num [MAX_CONTEXT_TOKENS])
     (by norm_num [MAX_CONTEXT_TOKENS]),
   (C7_meter_bands_and_fallback 800000 []).2.2.1 (by norm_num [MAX_CONTEXT_TOKENS]),
   (C7_meter_bands_and_fallback 0 [fileA]).2.2.2⟩

lemma dropWhile_replicate_not (p : Char → Bool) (n : Nat) (c : Char)
    (h : p c = false) :
    (List.replicate n c).dropWhile p = List.replicate n c := by
  cases n with
  | zero => rfl
  | succ n =>
    rw [List.replicate_succ, List.dropWhile_cons, h]
    simp [List.replicate_succ]

lemma pyStripL_replicate (n : Nat) (c : Char) (h : c.isWhitespace = false) :
    pyStripL (List.replicate n c) = List.replicate n c := by
  unfold pyStripL
  rw [dropWhile_replicate_not _ _ _ h, List.reverse_replicate,
      dropWhile_replicate_not _ _ _ h, List.reverse_replicate]

lemma isPrefixOf_single_replicate (d c : Char) (n : Nat) (h : n ≠ 0) :
    List.isPrefixOf [d] (List.replicate n c) = (d == c) := by
  cases n with
  | zero => exact absurd rfl h
  | succ n =>
    rw [List.replicate_succ]
    simp [List.isPrefixOf]

/-- C5 (failing evaluation): `validate_message` would reject a
60,000-character message, but the chat path never calls it — `send_chat`
forwards the oversized message to the model and, when the call succeeds,
appends its two history entries as for any other turn.  The only gate in
`send_chat` is the emptiness check on the input box. -/
theorem C5_oversized_message_reaches_engine :
    longMessage.length = 60000
    ∧ MAX_MESSAGE_LENGTH < 60000
    ∧ validate_message longMessage
        = .error "Message exceeds 50000 character limit"
    ∧ (send_chat (.ok "A long answer." none) (.ok "chart.png") longMessage
        session0).conversationHistory.length
      = session0.conversationHistory.length + 2 := by
  have hdata : longMessage.data = List.replicate 60000 'a' := rfl
  have hlen : longMessage.length = 60000 := by
    show longMessage.data.length = 60000
    rw [hdata, List.length_replicate]
  have hne : longMessage ≠ "" := by
    intro h
    rw [h] at hlen
    simp at hlen
  have hstrip : pyStrip longMessage = longMessage := by
    unfold pyStrip
    rw [hdata, pyStripL_replicate _ _ (by decide)]
    rfl
  have hslash : pyStartsWith longMessage "/" = false := by
    unfold pyStartsWith
    have hs : ("/" : String).data = ['/'] := rfl
    rw [hs, hdata, isPrefixOf_single_replicate _ _ _ (by norm_num)]
    decide
  have hdisp : dispatch longMessage = .passthrough longMessage := by
    unfold dispatch
    rw [if_neg hne, if_neg (by simp [hslash])]
  refine ⟨hlen, by norm_num [MAX_MESSAGE_LENGTH], ?_, ?_⟩
  · unfold validate_message
    rw [if_neg hne]
    dsimp only
    rw [hstrip, if_neg hne, if_pos (by rw [hlen]; norm_num [MAX_MESSAGE_LENGTH])]
    rfl
  · unfold send_chat
    rw [hdisp]
    simp [run_model_turn, session0]

lemma lowerChar_toNat (c : Char) :
    lowerChar c = c ∨ (97 ≤ (lowerChar c).toNat ∧ (lowerChar c).toNat ≤ 122) := by
  unfold lowerChar
  split_ifs with h
  · right
    have he : (Char.ofNatAux (c.toNat + 32) (Or.inl (by omega))).toNat
        = c.toNat + 32 := rfl
    rw [he]
    omega
  · left
    rfl

lemma lowerChar_fix (c : Char) (h : ¬(65 ≤ c.toNat ∧ c.toNat ≤ 90)) :
    lowerChar c = c := by
  unfold lowerChar
  rw [dif_neg h]

lemma lowerChar_idem (c : Char) : lowerChar (lowerChar c) = lowerChar c := by
  rcases lowerChar_toNat c with h | h
  · rw [h]
    exact h
  · exact lowerChar_fix _ (by omega)

lemma lowerChar_whitespace {c : Char} (h : c.isWhitespace = true) :
    lowerChar c = c := by
  have hc : ((c = ' ' ∨ c = '\t') ∨ c = '\x0d') ∨ c = '\n' := by
    simpa [Char.isWhitespace] using h
  rcases hc with ((rfl | rfl) | rfl) | rfl <;> decide

lemma map_lowerChar_idem (l : List Char) :
    (l.map lowerChar).map lowerChar = l.map lowerChar := by
  induction l with
  | nil => rfl
  | cons c t ih => simp [lowerChar_idem, ih]

lemma lowerStr_idem (s : String) : lowerStr (lowerStr s) = lowerStr s := by
  unfold lowerStr
  exact congrArg String.mk (map_lowerChar_idem s.data)

lemma pyStripL_pad (a x b : List Char)
    (ha : ∀ c ∈ a, c.isWhitespace = true) (hb : ∀ c ∈ b, c.isWhitespace = true) :
    pyStripL (a ++ x ++ b) = pyStripL x := by
  unfold pyStripL
  rw [List.append_assoc, List.dropWhile_append_of_pos ha, List.dropWhile_append]
  by_cases hx : (x.dropWhile Char.isWhitespace).isEmpty
  · rw [if_pos hx, List.dropWhile_eq_nil_iff.mpr hb]
    rw [List.isEmpty_iff.mp hx]
  · rw [if_neg hx, List.reverse_append,
        List.dropWhile_append_of_pos (fun c hc => hb c (List.mem_reverse.mp hc))]

lemma lowerStr_all_whitespace (a : String)
    (ha : ∀ c ∈ a.data, c.isWhitespace = true) :
    ∀ c ∈ (lowerStr a).data, c.isWhitespace = true := by
  intro c hc
  obtain ⟨d, hd, rfl⟩ := List.mem_map.mp hc
  rw [lowerChar_whitespace (ha d hd)]
  exact ha d hd

lemma presetLookup_isSome_iff_indicator (c : String) :
    (presetLookup c).1.isSome = true ↔ (indicatorLookup c).isSome = true := by
  unfold presetLookup indicatorLookup
  split_ifs <;> simp

lemma presetLookup_isSome_iff_mem (c : String) :
    (presetLookup c).1.isSome = true ↔ c ∈ presetAliases := by
  unfold presetLookup presetAliases
  split_ifs with h1 h2 h3 <;> simp [List.mem_cons] <;> tauto

/-- C10: `get_preset` yields a prompt exactly when `get_preset_indicator`
yields a label — the two alias tables agree, on exactly the nine aliases;
both are insensitive to the letter case of the command token and to
whitespace surrounding it; and a match carries thinking level `"medium"`
for the report aliases and `"high"` for the synthesize and error-check
aliases. -/
theorem C10_preset_tables_agree (cmd : String) :
    ((get_preset cmd).1.isSome = true ↔ (get_preset_indicator cmd).isSome = true)
    ∧ ((get_preset cmd).1.isSome = true ↔ pyStrip (lowerStr cmd) ∈ presetAliases)
    ∧ get_preset (lowerStr cmd) = get_preset cmd
    ∧ get_preset_indicator (lowerStr cmd) = get_preset_indicator cmd
    ∧ (∀ a b : String, (∀ c ∈ a.data, c.isWhitespace = true) →
        (∀ c ∈ b.data, c.isWhitespace = true) →
        get_preset (a ++ cmd ++ b) = get_preset cmd
        ∧ get_preset_indicator (a ++ cmd ++ b) = get_preset_indicator cmd)
    ∧ (pyStrip (lowerStr cmd) ∈ (["/report", "/summarize", "/digest"] : List String) →
        (get_preset cmd).2 = some "medium")
    ∧ (pyStrip (lowerStr cmd) ∈ (["/synthesize", "/theory", "/insights",
        "/error-check", "/contradictions", "/verify"] : List String) →
        (get_preset cmd).2 = some "high") := by
  have hnorm : ∀ a b : String, (∀ c ∈ a.data, c.isWhitespace = true) →
      (∀ c ∈ b.data, c.isWhitespace = true) →
      pyStrip (lowerStr (a ++ cmd ++ b)) = pyStrip (lowerStr cmd) := by
    intro a b ha hb
    unfold pyStrip lowerStr
    simp only [String.data_append, List.map_append]
    exact congrArg String.mk
      (pyStripL_pad _ _ _
        (lowerStr_all_whitespace a ha) (lowerStr_all_whitespace b hb))
  refine ⟨presetLookup_isSome_iff_indicator _,
          presetLookup_isSome_iff_mem _, ?_, ?_, ?_, ?_, ?_⟩
  · unfold get_preset
    rw [lowerStr_idem]
  · unfold get_preset_indicator
    rw [lowerStr_idem]
  · intro a b ha hb
    constructor
    · unfold get_preset
      rw [hnorm a b ha hb]
    · unfold get_preset_indicator
      rw [hnorm a b ha hb]
  · intro h
    unfold get_preset
    simp only [List.mem_cons, List.not_mem_nil, or_false] at h
    rcases h with h | h | h <;> rw [h] <;> decide
  · intro h
    unfold get_preset
    simp only [List.mem_cons, List.not_mem_nil, or_false] at h
    rcases h with h | h | h | h | h | h <;> rw [h] <;> decide

/-- Witness for C10: a report alias survives uppercase spelling and
surrounding whitespace with level `"medium"`; an error-check alias with
level `"high"`; and the indicator agrees with the preset on a matched and an
unmatched token. -/
theorem C10_witness :
    (get_preset " /REPORT " ).2 = some "medium"
    ∧ (get_preset "/Verify").2 = some "high"
    ∧ ((get_preset "/summarize").1.isSome = true
        ↔ (get_preset_indicator "/summarize").isSome = true)
    ∧ ((get_preset "/bogus").1.isSome = true
        ↔ pyStrip (lowerStr "/bogus") ∈ presetAliases) :=
  ⟨(C10_preset_tables_agree " /REPORT ").2.2.2.2.2.1 (by decide),
   (C10_preset_tables_agree "/Verify").2.2.2.2.2.2 (by decide),
   (C10_preset_tables_agree "/summarize").1,
   (C10_preset_tables_agree "/bogus").2.1⟩

end GemDesk
